import Mathlib

/-!
# Verification of the sageturner load/predict contract

Shallow embedding of the five source files of the repository:

* `examples/resnet-50/generate-container/sageturner.py`
* `examples/resnet-50/provided-container/serve.py`
* `examples/CLIP/generate-container/sageturner.py`
* `examples/CLIP/provided-container/serve.py`
* `examples/CLIP/serve.py`

Python runtime values that flow through the adapters are embedded as `PyVal`;
uncaught Python exceptions as `PyError`; the external libraries (torch, clip,
PIL, transformers, base64) as an abstract record `Libs` of deterministic
functions; the process environment (the `/opt/ml/model` mount, the
`SIMPLE_SAGE_ARTIFACT_PATH` variable, CUDA availability) as `Env`.
The torch gradient mode is threaded explicitly as `ProcState`, and every
model forward pass is recorded in a trace together with the gradient mode in
force when it ran, so that the no-grad requirement is checkable.
-/

namespace Sageturner

/-- Python runtime values handled by the adapters: strings, numbers,
lists, dicts with string keys, and the opaque model / preprocessor objects
returned by the ML libraries. -/
inductive PyVal where
  | str (s : String)
  | int (n : Int)
  | float (q : Rat)
  | list (xs : List PyVal)
  | dict (entries : List (String × PyVal))
  | modelObj (id : Nat)
  | preprocObj (id : Nat)
  deriving Repr

/-- Uncaught Python exceptions that the embedded code can raise, plus the two
error names of the spec's taxonomy (`invalidRequestError`, `artifactLoadError`)
so that claims about them can be stated.  The source defines no exception
class of its own; it only lets library exceptions propagate. -/
inductive PyError where
  | keyError (k : String)
  | attributeError (k : String)
  | typeError
  | binasciiError
  | unidentifiedImageError
  | invalidRequestError
  | artifactLoadError
  deriving Repr, DecidableEq

/-- Python subscript `v[k]` with a string key: succeeds only on a dict that
holds the key (`KeyError` otherwise); any non-dict value raises `TypeError`
(neither the ResNet nor the CLIP model object is subscriptable). -/
def PyVal.getItem : PyVal → String → Except PyError PyVal
  | .dict entries, k =>
    match entries.lookup k with
    | some v => .ok v
    | none => .error (.keyError k)
  | _, _ => .error .typeError

/-- Python attribute access `v.k`, for `request.image` in `CLIP/serve.py`;
objects are embedded as dicts of their attributes. -/
def PyVal.getAttr : PyVal → String → Except PyError PyVal
  | .dict entries, k =>
    match entries.lookup k with
    | some v => .ok v
    | none => .error (.attributeError k)
  | _, k => .error (.attributeError k)

/-- Passing a value where a `str` is expected (e.g. to `base64.b64decode`):
`TypeError` unless it is a string. -/
def asStr : PyVal → Except PyError String
  | .str s => .ok s
  | _ => .error .typeError

/-- Calling a value as a model (`model(**inputs)`, `model(image, text)`):
`TypeError` unless it is a model object. -/
def asModelObj : PyVal → Except PyError Nat
  | .modelObj m => .ok m
  | _ => .error .typeError

/-- Calling a value as a preprocessor (`preprocess(image)`): `TypeError`
unless it is a preprocessor object. -/
def asPreprocObj : PyVal → Except PyError Nat
  | .preprocObj p => .ok p
  | _ => .error .typeError

/-- The process environment read at load time: whether `/opt/ml/model` is a
directory, its listing, and the value of `SIMPLE_SAGE_ARTIFACT_PATH`
(`none` when unset). -/
structure Env where
  mountIsDir : Bool
  mountListing : List String
  simpleSageArtifactPath : Option String
  deriving Repr, DecidableEq

/-- `artefact_on_sagemaker = os.path.isdir("/opt/ml/model") and
os.listdir("/opt/ml/model")` — truthy exactly when the mount directory exists
and is non-empty. -/
def artefactOnSagemaker (env : Env) : Bool :=
  env.mountIsDir && !env.mountListing.isEmpty

/-- Python truthiness of an `os.getenv` result: truthy exactly when the
variable is set to a non-empty string. -/
def envTruthy : Option String → Bool
  | none => false
  | some s => !s.isEmpty

/-- Abstract, deterministic behaviour of the external libraries.  Model,
preprocessor, image and tensor objects are identified by `Nat` ids; fallible
operations return `Except PyError`. -/
structure Libs where
  /-- `torch.cuda.is_available()` (fixed at process start). -/
  cudaAvailable : Bool
  /-- `clip.load(path, device)` returning (model, preprocess). -/
  clipLoad : String → String → Except PyError (Nat × Nat)
  /-- `ResNetForImageClassification.from_pretrained(..., path)`. -/
  fromPretrained : String → Except PyError Nat
  /-- `AutoImageProcessor.from_pretrained(path, use_fast=True)`. -/
  autoImageProcessor : String → Except PyError Nat
  /-- `base64.b64decode(s)` producing a byte buffer. -/
  b64decode : String → Except PyError (List Nat)
  /-- `Image.open(BytesIO(buf))`. -/
  imageOpen : List Nat → Except PyError Nat
  /-- `processor(image, return_tensors="pt")`. -/
  processorApply : Nat → Nat → Nat
  /-- `model(**inputs).logits` for the ResNet classifier. -/
  resnetForward : Nat → Nat → Nat
  /-- `logits.argmax(-1).item()`. -/
  argmaxItem : Nat → Int
  /-- `model.config.id2label`, the label table of the model's configuration. -/
  id2label : Nat → List (Int × String)
  /-- CLIP `preprocess(image)`. -/
  preprocessApply : Nat → Nat → Nat
  /-- `.unsqueeze(0)`. -/
  unsqueeze : Nat → Nat
  /-- `.to(device)`. -/
  toDevice : Nat → String → Nat
  /-- `clip.tokenize(labels)`. -/
  tokenize : List String → Nat
  /-- `model.encode_image(image)`. -/
  encodeImage : Nat → Nat → Nat
  /-- `model.encode_text(text)`. -/
  encodeText : Nat → Nat → Nat
  /-- `model(image, text)` returning (logits_per_image, logits_per_text). -/
  clipForward : Nat → Nat → Nat → Nat × Nat
  /-- `logits.softmax(dim=-1).cpu().numpy()`. -/
  softmaxCpuNumpy : Nat → Nat
  /-- `.tolist()` on the 2-D numpy probability array: nested plain lists. -/
  tolist : Nat → List (List Rat)

/-- `device = "cuda" if torch.cuda.is_available() else "cpu"`. -/
def clipDevice (L : Libs) : String :=
  if L.cudaAvailable then "cuda" else "cpu"

/-- The spec's `ArtifactSource` enum: where the weights are taken from. -/
inductive ArtifactSource where
  | mountedPath (p : String)
  | namedReference (n : String)
  deriving Repr, DecidableEq

/-- The path/name a resolved source hands to the loading call. -/
def ArtifactSource.path : ArtifactSource → String
  | .mountedPath p => p
  | .namedReference n => n

/-- Artifact resolution of both resnet-50 files (`sageturner.py` lines 19–23,
`provided-container/serve.py` lines 10–14): mount directory when non-empty,
else the local fallback `../artefact`; the environment is never consulted. -/
def resnetResolve (env : Env) : ArtifactSource :=
  if artefactOnSagemaker env then .mountedPath "/opt/ml/model"
  else .namedReference "../artefact"

/-- Artifact resolution of the CLIP generate-container adapter and the CLIP
provided container (lines 12–18 resp. 15–19): mounted weights file when the
mount directory is non-empty, else the named reference `ViT-B/32`; the
environment is never consulted. -/
def clipGenResolve (env : Env) : ArtifactSource :=
  if artefactOnSagemaker env then .mountedPath "/opt/ml/model/ViT-B-32.pt"
  else .namedReference "ViT-B/32"

/-- Artifact resolution of `CLIP/serve.py` (lines 15–18): the
`SIMPLE_SAGE_ARTIFACT_PATH` override when truthy, else the named reference
`ViT-B/32`; the mount directory is never probed. -/
def clipServeResolve (env : Env) : ArtifactSource :=
  match env.simpleSageArtifactPath with
  | some s => if s.isEmpty then .namedReference "ViT-B/32" else .mountedPath s
  | none => .namedReference "ViT-B/32"

/-- Modelled from the spec: the three-level resolution protocol of §4.1 as
the spec words it (mount directory first, then the environment override, then
the default named reference).  Used only to compare the code's resolvers
against the spec's claimed precedence. -/
def specResolve (env : Env) (mount dflt : String) : ArtifactSource :=
  if artefactOnSagemaker env then .mountedPath mount
  else if envTruthy env.simpleSageArtifactPath then
    .mountedPath (env.simpleSageArtifactPath.getD "")
  else .namedReference dflt

/-- resnet-50 `load()` (generate-container lines 10–26; the provided
container's module level lines 10–16 is the same computation): resolve the
artifact path, call `from_pretrained` on it, and return the bare model
object.  No preprocessor and no device are part of the returned handle. -/
def resnetLoad (L : Libs) (env : Env) : Except PyError PyVal :=
  match L.fromPretrained (resnetResolve env).path with
  | .error e => .error e
  | .ok m => .ok (.modelObj m)

/-- The dict built at lines 20–24 of the CLIP generate-container `load()`:
keys `"model"`, `"preprocess"` and `"device"`. -/
def clipGenModelDict (m p : Nat) (device : String) : PyVal :=
  .dict [("model", .modelObj m), ("preprocess", .preprocObj p),
         ("device", .str device)]

/-- CLIP generate-container `load()` (lines 10–25): resolve the artifact,
call `clip.load`, build `model_dict` — and then return the bare `model`
instead of the dict (line 25 reads `return model`). -/
def clipGenLoad (L : Libs) (env : Env) : Except PyError PyVal :=
  match L.clipLoad (clipGenResolve env).path (clipDevice L) with
  | .error e => .error e
  | .ok (m, p) =>
    let _model_dict := clipGenModelDict m p (clipDevice L)
    .ok (.modelObj m)

/-- CLIP provided-container module-level load (`serve.py` lines 13–19):
`model, preprocess = clip.load(..., device)`, kept as module globals. -/
def clipProvidedLoad (L : Libs) (env : Env) : Except PyError (Nat × Nat) :=
  L.clipLoad (clipGenResolve env).path (clipDevice L)

/-- `CLIP/serve.py` module-level load (lines 13–18). -/
def clipServeLoad (L : Libs) (env : Env) : Except PyError (Nat × Nat) :=
  L.clipLoad (clipServeResolve env).path (clipDevice L)

/-- The torch state a `predict` call can observe and restore: whether
gradient computation is currently enabled (torch's default is `true`). -/
structure ProcState where
  gradEnabled : Bool
  deriving Repr, DecidableEq

/-- `with torch.no_grad():` — run the body with gradient computation
disabled; on exit the previously active mode is restored, so (the bodies in
this code base only read the torch state) the state after the block is the
state before it.  The body returns its result together with the trace of the
forward passes it ran. -/
def withNoGrad {α : Type} (s : ProcState) (body : ProcState → α × List Bool) :
    α × ProcState × List Bool :=
  let r := body { s with gradEnabled := false }
  (r.1, s, r.2)

/-- `Image.open(BytesIO(base64.b64decode(request["image"])))` — the shared
request-decoding chain of both sageturner adapters and both provided
containers. -/
def decodeImage (L : Libs) (request : PyVal) : Except PyError Nat :=
  match request.getItem "image" with
  | .error e => .error e
  | .ok payload =>
    match asStr payload with
    | .error e => .error e
    | .ok b64 =>
      match L.b64decode b64 with
      | .error e => .error e
      | .ok buf => L.imageOpen buf

/-- The fixed candidate label set hardcoded in every CLIP predict
(`clip.tokenize(["a diagram", "a dog", "a beanbag"])`). -/
def clipCandidateLabels : List String := ["a diagram", "a dog", "a beanbag"]

/-- Embedding of a 2-D numpy `tolist()` result into a Python value:
a list of lists of plain floats. -/
def probsToPy (rows : List (List Rat)) : PyVal :=
  .list (rows.map fun row => .list (row.map PyVal.float))

/-- resnet-50 `predict(model, request)` (generate-container lines 28–44; the
provided container's `/invocations` handler lines 29–38 is the same
computation with the module-global model).  Returns the outcome, the torch
state after the call, and the trace of forward passes with the gradient mode
each one ran under. -/
def resnetPredict (L : Libs) (model request : PyVal) (s : ProcState) :
    Except PyError PyVal × ProcState × List Bool :=
  match L.autoImageProcessor "preprocessor_config.json" with
  | .error e => (.error e, s, [])
  | .ok processor =>
    match decodeImage L request with
    | .error e => (.error e, s, [])
    | .ok image =>
      let inputs := L.processorApply processor image
      let wng := withNoGrad s fun s1 =>
        match asModelObj model with
        | .error e => ((Except.error e : Except PyError (Nat × Nat)), ([] : List Bool))
        | .ok m => (.ok (m, L.resnetForward m inputs), [s1.gradEnabled])
      match wng.1 with
      | .error e => (.error e, wng.2.1, wng.2.2)
      | .ok (m, logits) =>
        let predicted := L.argmaxItem logits
        match (L.id2label m).lookup predicted with
        | none => (.error (.keyError (toString predicted)), wng.2.1, wng.2.2)
        | some label => (.ok (.dict [("label", .str label)]), wng.2.1, wng.2.2)

/-- CLIP generate-container `predict(model, request)` (lines 27–40).  Python
evaluates the callee `model["preprocess"]` of line 28 before the argument, so
the handle is subscripted before the payload is read.  `model["device"]` is
read again on line 29; the handle is unchanged in between, so the embedding
reuses the value.  Lines 31–36 run inside `torch.no_grad()`: both encoders,
the joint forward pass and the softmax. -/
def clipGenPredict (L : Libs) (model request : PyVal) (s : ProcState) :
    Except PyError PyVal × ProcState × List Bool :=
  match model.getItem "preprocess" with
  | .error e => (.error e, s, [])
  | .ok preVal =>
    match decodeImage L request with
    | .error e => (.error e, s, [])
    | .ok img =>
      match asPreprocObj preVal with
      | .error e => (.error e, s, [])
      | .ok p =>
        let t0 := L.unsqueeze (L.preprocessApply p img)
        match model.getItem "device" with
        | .error e => (.error e, s, [])
        | .ok devVal =>
          match asStr devVal with
          | .error e => (.error e, s, [])
          | .ok dev =>
            let image := L.toDevice t0 dev
            let text := L.toDevice (L.tokenize clipCandidateLabels) dev
            let wng := withNoGrad s fun s1 =>
              match model.getItem "model" with
              | .error e => ((Except.error e : Except PyError Nat), ([] : List Bool))
              | .ok mVal =>
                match asModelObj mVal with
                | .error e => (.error e, [])
                | .ok m =>
                  let _imageFeatures := L.encodeImage m image
                  let _textFeatures := L.encodeText m text
                  -- `.1` of the joint forward pass is logits_per_image
                  (.ok (L.softmaxCpuNumpy (L.clipForward m image text).1),
                    [s1.gradEnabled, s1.gradEnabled, s1.gradEnabled])
            match wng.1 with
            | .error e => (.error e, wng.2.1, wng.2.2)
            | .ok probs =>
              (.ok (.dict [("probs", probsToPy (L.tolist probs))]), wng.2.1, wng.2.2)

/-- `CLIP/serve.py` `/invocations` handler (lines 31–44) and, identically up
to the request access, the CLIP provided container's handler (lines 32–46):
the module globals `model`, `preprocess` and `device` are passed explicitly.
`CLIP/serve.py` reads the payload as the attribute `request.image`. -/
def clipServePredict (L : Libs) (m p : Nat) (device : String)
    (request : PyVal) (s : ProcState) :
    Except PyError PyVal × ProcState × List Bool :=
  match request.getAttr "image" with
  | .error e => (.error e, s, [])
  | .ok payload =>
    match asStr payload with
    | .error e => (.error e, s, [])
    | .ok b64 =>
      match L.b64decode b64 with
      | .error e => (.error e, s, [])
      | .ok buf =>
        match L.imageOpen buf with
        | .error e => (.error e, s, [])
        | .ok img =>
          let image := L.toDevice (L.unsqueeze (L.preprocessApply p img)) device
          let text := L.toDevice (L.tokenize clipCandidateLabels) device
          let wng := withNoGrad s fun s1 =>
            let _imageFeatures := L.encodeImage m image
            let _textFeatures := L.encodeText m text
            -- `.1` of the joint forward pass is logits_per_image
            (L.softmaxCpuNumpy (L.clipForward m image text).1,
              [s1.gradEnabled, s1.gradEnabled, s1.gradEnabled])
          (.ok (.dict [("probs", probsToPy (L.tolist wng.1))]), wng.2.1, wng.2.2)

/-- A server that reached its serving loop: startup succeeded and the
handles are stored.  In every server file the model is loaded at module
level, before the app object exists, so this value is only constructible
from a successful load. -/
structure RunningServer where
  handles : PyVal

/-- Module-level startup of the resnet provided container (`serve.py` lines
10–17): the load runs first; an uncaught exception aborts the process before
`app = FastAPI()` — there is no serving state unless the load succeeded. -/
def resnetServerStart (L : Libs) (env : Env) : Except PyError RunningServer :=
  match resnetLoad L env with
  | .error e => .error e
  | .ok h => .ok ⟨h⟩

/-- Module-level startup of the CLIP provided container (`serve.py` lines
13–22). -/
def clipServerStart (L : Libs) (env : Env) : Except PyError RunningServer :=
  match clipProvidedLoad L env with
  | .error e => .error e
  | .ok (m, p) => .ok ⟨clipGenModelDict m p (clipDevice L)⟩

/-- A request hitting a running resnet server: `predict` applied to the
stored handle. -/
def resnetServerInvoke (L : Libs) (srv : RunningServer) (request : PyVal)
    (s : ProcState) : Except PyError PyVal × ProcState × List Bool :=
  resnetPredict L srv.handles request s

/-- Recursive JSON-serializability of a Python value: strings, ints, floats,
and lists/dicts of such; model, preprocessor and tensor objects are not
JSON-serializable. -/
def isJsonSerializable : PyVal → Bool
  | .str _ => true
  | .int _ => true
  | .float _ => true
  | .list [] => true
  | .list (x :: xs) => isJsonSerializable x && isJsonSerializable (.list xs)
  | .dict [] => true
  | .dict ((_, v) :: kvs) => isJsonSerializable v && isJsonSerializable (.dict kvs)
  | .modelObj _ => false
  | .preprocObj _ => false

/-- Sanity of the abstract libraries for error classification: the fallible
library calls fail with their own library exceptions — `base64` with
`binascii.Error`, `PIL` with `UnidentifiedImageError` — and no library ever
raises the spec's `InvalidRequestError` (no such class exists anywhere). -/
def Libs.wf (L : Libs) : Prop :=
  (∀ s e, L.b64decode s = .error e → e = .binasciiError) ∧
  (∀ b e, L.imageOpen b = .error e → e = .unidentifiedImageError) ∧
  (∀ p e, L.autoImageProcessor p = .error e → e ≠ .invalidRequestError) ∧
  (∀ p d e, L.clipLoad p d = .error e → e ≠ .invalidRequestError) ∧
  (∀ p e, L.fromPretrained p = .error e → e ≠ .invalidRequestError)

/-- A concrete instantiation of the abstract libraries, used to evaluate the
embedding on closed inputs: one model (id 0) whose label table maps class 0
to "tabby"; base64 decoding succeeds exactly on the string "ok". -/
def testLibs : Libs where
  cudaAvailable := false
  clipLoad := fun _ _ => .ok (0, 1)
  fromPretrained := fun _ => .ok 0
  autoImageProcessor := fun _ => .ok 0
  b64decode := fun s => if s = "ok" then .ok [0] else .error .binasciiError
  imageOpen := fun _ => .ok 0
  processorApply := fun _ _ => 0
  resnetForward := fun _ _ => 0
  argmaxItem := fun _ => 0
  id2label := fun _ => [(0, "tabby")]
  preprocessApply := fun _ _ => 0
  unsqueeze := fun t => t
  toDevice := fun t _ => t
  tokenize := fun _ => 0
  encodeImage := fun _ _ => 0
  encodeText := fun _ _ => 0
  clipForward := fun _ _ _ => (0, 0)
  softmaxCpuNumpy := fun t => t
  tolist := fun _ => [[1, 0, 0]]

/-- `testLibs` with a failing weight loader, for exercising the startup
failure path. -/
def failLibs : Libs :=
  { testLibs with
    fromPretrained := fun _ => .error .artifactLoadError
    clipLoad := fun _ _ => .error .artifactLoadError }

/-! ## Helper lemmas -/

/-- A successful association-list lookup only returns pairs of the list. -/
theorem mem_of_lookup_eq_some {α β : Type} [BEq α] [LawfulBEq α] {k : α}
    {v : β} : ∀ {l : List (α × β)}, l.lookup k = some v → (k, v) ∈ l := by
  intro l
  induction l with
  | nil => intro h; simp [List.lookup] at h
  | cons hd tl ih =>
    obtain ⟨a, b⟩ := hd
    intro h
    rw [List.lookup] at h
    cases hak : k == a with
    | true =>
      rw [hak] at h
      simp at h
      obtain rfl : k = a := beq_iff_eq.mp hak
      rw [← h]
      exact List.mem_cons_self _ _
    | false =>
      rw [hak] at h
      simp at h
      exact List.mem_cons_of_mem _ (ih h)

/-- Subscripting can only fail with `KeyError` on the requested key or with
`TypeError`. -/
theorem getItem_error {v : PyVal} {k : String} {e : PyError} :
    v.getItem k = .error e → e = .keyError k ∨ e = .typeError := by
  intro h
  unfold PyVal.getItem at h
  split at h
  · split at h
    · exact absurd h (by simp)
    · injection h with h; exact Or.inl h.symm
  · injection h with h; exact Or.inr h.symm

/-- Attribute access can only fail with `AttributeError` on the requested
attribute. -/
theorem getAttr_error {v : PyVal} {k : String} {e : PyError} :
    v.getAttr k = .error e → e = .attributeError k := by
  intro h
  unfold PyVal.getAttr at h
  split at h
  · split at h
    · exact absurd h (by simp)
    · injection h with h; exact h.symm
  · injection h with h; exact h.symm

/-- `asStr` only fails with `TypeError`. -/
theorem asStr_error {v : PyVal} {e : PyError} :
    asStr v = .error e → e = .typeError := by
  intro h
  unfold asStr at h
  split at h
  · exact absurd h (by simp)
  · injection h with h; exact h.symm

/-- `asModelObj` only fails with `TypeError`. -/
theorem asModelObj_error {v : PyVal} {e : PyError} :
    asModelObj v = .error e → e = .typeError := by
  intro h
  unfold asModelObj at h
  split at h
  · exact absurd h (by simp)
  · injection h with h; exact h.symm

/-- `asPreprocObj` only fails with `TypeError`. -/
theorem asPreprocObj_error {v : PyVal} {e : PyError} :
    asPreprocObj v = .error e → e = .typeError := by
  intro h
  unfold asPreprocObj at h
  split at h
  · exact absurd h (by simp)
  · injection h with h; exact h.symm

/-- The request-decoding chain fails only with a key error on `"image"`, a
`TypeError`, or one of the two decoding library errors. -/
theorem decodeImage_error {L : Libs} {r : PyVal} {e : PyError} (hwf : L.wf) :
    decodeImage L r = .error e →
    e = .keyError "image" ∨ e = .typeError ∨ e = .binasciiError ∨
      e = .unidentifiedImageError := by
  intro h
  unfold decodeImage at h
  split at h
  next heq =>
    injection h with h; subst h
    rcases getItem_error heq with h1 | h1
    · exact Or.inl h1
    · exact Or.inr (Or.inl h1)
  next payload heq =>
    split at h
    next heq2 =>
      injection h with h; subst h
      exact Or.inr (Or.inl (asStr_error heq2))
    next b64 heq2 =>
      split at h
      next heq3 =>
        injection h with h; subst h
        exact Or.inr (Or.inr (Or.inl (hwf.1 _ _ heq3)))
      next buf heq3 =>
        exact Or.inr (Or.inr (Or.inr (hwf.2.1 _ _ h)))

/-- `resnetPredict` returns the torch state it was called with. -/
theorem resnetPredict_state (L : Libs) (m r : PyVal) (s : ProcState) :
    (resnetPredict L m r s).2.1 = s := by
  unfold resnetPredict withNoGrad
  repeat' (first | rfl | (dsimp only) | split)

/-- `clipGenPredict` returns the torch state it was called with. -/
theorem clipGenPredict_state (L : Libs) (m r : PyVal) (s : ProcState) :
    (clipGenPredict L m r s).2.1 = s := by
  unfold clipGenPredict withNoGrad
  repeat' (first | rfl | (dsimp only) | split)

/-- `clipServePredict` returns the torch state it was called with. -/
theorem clipServePredict_state (L : Libs) (m p : Nat) (d : String)
    (r : PyVal) (s : ProcState) : (clipServePredict L m p d r s).2.1 = s := by
  unfold clipServePredict withNoGrad
  repeat' (first | rfl | (dsimp only) | split)

/-- Every forward pass traced by `resnetPredict` ran with gradients off. -/
theorem resnetPredict_trace (L : Libs) (m r : PyVal) (s : ProcState) :
    (resnetPredict L m r s).2.2.all (fun g => !g) = true := by
  unfold resnetPredict withNoGrad
  repeat' (first | rfl | (dsimp only) | split)

/-- Every forward pass traced by `clipGenPredict` ran with gradients off. -/
theorem clipGenPredict_trace (L : Libs) (m r : PyVal) (s : ProcState) :
    (clipGenPredict L m r s).2.2.all (fun g => !g) = true := by
  unfold clipGenPredict withNoGrad
  repeat' (first | rfl | (dsimp only) | split)

/-- Every forward pass traced by `clipServePredict` ran with gradients off. -/
theorem clipServePredict_trace (L : Libs) (m p : Nat) (d : String)
    (r : PyVal) (s : ProcState) :
    (clipServePredict L m p d r s).2.2.all (fun g => !g) = true := by
  unfold clipServePredict withNoGrad
  repeat' (first | rfl | (dsimp only) | split)

theorem resnetPredict_ok (L : Libs) (h r : PyVal) (s : ProcState) (v : PyVal) :
    (resnetPredict L h r s).1 = .ok v →
    ∃ pr img m label,
      L.autoImageProcessor "preprocessor_config.json" = .ok pr ∧
      decodeImage L r = .ok img ∧
      asModelObj h = .ok m ∧
      (L.id2label m).lookup
        (L.argmaxItem (L.resnetForward m (L.processorApply pr img))) = some label ∧
      v = .dict [("label", .str label)] := by
  intro hp
  unfold resnetPredict withNoGrad at hp
  cases hP : L.autoImageProcessor "preprocessor_config.json" with
  | error e1 => rw [hP] at hp; dsimp only at hp; exact Except.noConfusion hp
  | ok pr =>
    rw [hP] at hp; dsimp only at hp
    cases hD : decodeImage L r with
    | error e1 => rw [hD] at hp; dsimp only at hp; exact Except.noConfusion hp
    | ok img =>
      rw [hD] at hp; dsimp only at hp
      cases hM : asModelObj h with
      | error e1 => rw [hM] at hp; dsimp only at hp; exact Except.noConfusion hp
      | ok m =>
        rw [hM] at hp; dsimp only at hp
        cases hL : (L.id2label m).lookup
            (L.argmaxItem (L.resnetForward m (L.processorApply pr img))) with
        | none => rw [hL] at hp; dsimp only at hp; exact Except.noConfusion hp
        | some lab =>
          rw [hL] at hp; dsimp only at hp
          injection hp with hp
          exact ⟨pr, img, m, lab, rfl, rfl, rfl, hL, hp.symm⟩

theorem clipGenPredict_ok (L : Libs) (h r : PyVal) (s : ProcState) (v : PyVal) :
    (clipGenPredict L h r s).1 = .ok v →
    ∃ probs, v = .dict [("probs", probsToPy (L.tolist probs))] := by
  intro hp
  unfold clipGenPredict withNoGrad at hp
  cases hPre : h.getItem "preprocess" with
  | error e1 => rw [hPre] at hp; dsimp only at hp; exact Except.noConfusion hp
  | ok preVal =>
    rw [hPre] at hp; dsimp only at hp
    cases hD : decodeImage L r with
    | error e1 => rw [hD] at hp; dsimp only at hp; exact Except.noConfusion hp
    | ok img =>
      rw [hD] at hp; dsimp only at hp
      cases hPP : asPreprocObj preVal with
      | error e1 => rw [hPP] at hp; dsimp only at hp; exact Except.noConfusion hp
      | ok p =>
        rw [hPP] at hp; dsimp only at hp
        cases hDev : h.getItem "device" with
        | error e1 => rw [hDev] at hp; dsimp only at hp; exact Except.noConfusion hp
        | ok devVal =>
          rw [hDev] at hp; dsimp only at hp
          cases hS : asStr devVal with
          | error e1 => rw [hS] at hp; dsimp only at hp; exact Except.noConfusion hp
          | ok dev =>
            rw [hS] at hp; dsimp only at hp
            cases hMd : h.getItem "model" with
            | error e1 => rw [hMd] at hp; dsimp only at hp; exact Except.noConfusion hp
            | ok mVal =>
              rw [hMd] at hp; dsimp only at hp
              cases hM : asModelObj mVal with
              | error e1 => rw [hM] at hp; dsimp only at hp; exact Except.noConfusion hp
              | ok m =>
                rw [hM] at hp; dsimp only at hp
                injection hp with hp
                exact ⟨_, hp.symm⟩

theorem clipServePredict_ok (L : Libs) (m p : Nat) (d : String) (r : PyVal)
    (s : ProcState) (v : PyVal) :
    (clipServePredict L m p d r s).1 = .ok v →
    ∃ probs, v = .dict [("probs", probsToPy (L.tolist probs))] := by
  intro hp
  unfold clipServePredict withNoGrad at hp
  cases hA : r.getAttr "image" with
  | error e1 => rw [hA] at hp; dsimp only at hp; exact Except.noConfusion hp
  | ok payload =>
    rw [hA] at hp; dsimp only at hp
    cases hS : asStr payload with
    | error e1 => rw [hS] at hp; dsimp only at hp; exact Except.noConfusion hp
    | ok b64 =>
      rw [hS] at hp; dsimp only at hp
      cases hB : L.b64decode b64 with
      | error e1 => rw [hB] at hp; dsimp only at hp; exact Except.noConfusion hp
      | ok buf =>
        rw [hB] at hp; dsimp only at hp
        cases hI : L.imageOpen buf with
        | error e1 => rw [hI] at hp; dsimp only at hp; exact Except.noConfusion hp
        | ok img =>
          rw [hI] at hp; dsimp only at hp
          injection hp with hp
          exact ⟨_, hp.symm⟩

theorem clipGenPredict_err (L : Libs) (hwf : L.wf) (h r : PyVal)
    (s : ProcState) (e : PyError) :
    (clipGenPredict L h r s).1 = .error e → e ≠ .invalidRequestError := by
  intro hp hc
  subst hc
  unfold clipGenPredict withNoGrad at hp
  cases hPre : h.getItem "preprocess" with
  | error e1 =>
    rw [hPre] at hp; dsimp only at hp
    injection hp with hp
    subst hp
    rcases getItem_error hPre with h1 | h1 <;> exact PyError.noConfusion h1
  | ok preVal =>
    rw [hPre] at hp; dsimp only at hp
    cases hD : decodeImage L r with
    | error e1 =>
      rw [hD] at hp; dsimp only at hp
      injection hp with hp
      subst hp
      rcases decodeImage_error hwf hD with h1 | h1 | h1 | h1 <;>
        exact PyError.noConfusion h1
    | ok img =>
      rw [hD] at hp; dsimp only at hp
      cases hPP : asPreprocObj preVal with
      | error e1 =>
        rw [hPP] at hp; dsimp only at hp
        injection hp with hp
        subst hp
        exact PyError.noConfusion (asPreprocObj_error hPP)
      | ok p =>
        rw [hPP] at hp; dsimp only at hp
        cases hDev : h.getItem "device" with
        | error e1 =>
          rw [hDev] at hp; dsimp only at hp
          injection hp with hp
          subst hp
          rcases getItem_error hDev with h1 | h1 <;> exact PyError.noConfusion h1
        | ok devVal =>
          rw [hDev] at hp; dsimp only at hp
          cases hS : asStr devVal with
          | error e1 =>
            rw [hS] at hp; dsimp only at hp
            injection hp with hp
            subst hp
            exact PyError.noConfusion (asStr_error hS)
          | ok dev =>
            rw [hS] at hp; dsimp only at hp
            cases hMd : h.getItem "model" with
            | error e1 =>
              rw [hMd] at hp; dsimp only at hp
              injection hp with hp
              subst hp
              rcases getItem_error hMd with h1 | h1 <;> exact PyError.noConfusion h1
            | ok mVal =>
              rw [hMd] at hp; dsimp only at hp
              cases hM : asModelObj mVal with
              | error e1 =>
                rw [hM] at hp; dsimp only at hp
                injection hp with hp
                subst hp
                exact PyError.noConfusion (asModelObj_error hM)
              | ok m =>
                rw [hM] at hp; dsimp only at hp
                exact Except.noConfusion hp

theorem clipServePredict_err (L : Libs) (hwf : L.wf) (m p : Nat) (d : String)
    (r : PyVal) (s : ProcState) (e : PyError) :
    (clipServePredict L m p d r s).1 = .error e → e ≠ .invalidRequestError := by
  intro hp hc
  subst hc
  unfold clipServePredict withNoGrad at hp
  cases hA : r.getAttr "image" with
  | error e1 =>
    rw [hA] at hp; dsimp only at hp
    injection hp with hp
    subst hp
    exact PyError.noConfusion (getAttr_error hA)
  | ok payload =>
    rw [hA] at hp; dsimp only at hp
    cases hS : asStr payload with
    | error e1 =>
      rw [hS] at hp; dsimp only at hp
      injection hp with hp
      subst hp
      exact PyError.noConfusion (asStr_error hS)
    | ok b64 =>
      rw [hS] at hp; dsimp only at hp
      cases hB : L.b64decode b64 with
      | error e1 =>
        rw [hB] at hp; dsimp only at hp
        injection hp with hp
        subst hp
        exact PyError.noConfusion (hwf.1 _ _ hB)
      | ok buf =>
        rw [hB] at hp; dsimp only at hp
        cases hI : L.imageOpen buf with
        | error e1 =>
          rw [hI] at hp; dsimp only at hp
          injection hp with hp
          subst hp
          exact PyError.noConfusion (hwf.2.1 _ _ hI)
        | ok img =>
          rw [hI] at hp; dsimp only at hp
          exact Except.noConfusion hp

theorem clipGenPredict_image_congr (L : Libs) (h r1 r2 : PyVal) (s : ProcState)
    (him : r1.getItem "image" = r2.getItem "image") :
    clipGenPredict L h r1 s = clipGenPredict L h r2 s := by
  unfold clipGenPredict decodeImage
  rw [him]

theorem clipServePredict_image_congr (L : Libs) (m p : Nat) (d : String)
    (r1 r2 : PyVal) (s : ProcState)
    (him : r1.getAttr "image" = r2.getAttr "image") :
    clipServePredict L m p d r1 s = clipServePredict L m p d r2 s := by
  unfold clipServePredict
  rw [him]


/-- Rows of plain floats are JSON-serializable. -/
theorem isJson_float_row (row : List Rat) :
    isJsonSerializable (.list (row.map PyVal.float)) = true := by
  induction row with
  | nil => simp [isJsonSerializable]
  | cons q rest ih => simp [List.map_cons, isJsonSerializable, ih]

/-- The embedded `tolist()` result is JSON-serializable. -/
theorem isJson_probsToPy (rows : List (List Rat)) :
    isJsonSerializable (probsToPy rows) = true := by
  induction rows with
  | nil => simp [probsToPy, isJsonSerializable]
  | cons row rest ih =>
    simp only [probsToPy, List.map_cons] at ih ⊢
    simp [isJsonSerializable, ih, isJson_float_row row]

/-- `resnetPredict` never fails with the spec's `InvalidRequestError`: its
failures are the processor load error, the decode-chain errors, `TypeError`
from calling a non-model, or `KeyError` from the label table. -/
theorem resnetPredict_err (L : Libs) (hwf : L.wf) (h r : PyVal)
    (s : ProcState) (e : PyError) :
    (resnetPredict L h r s).1 = .error e → e ≠ .invalidRequestError := by
  intro hp hc
  subst hc
  unfold resnetPredict withNoGrad at hp
  cases hP : L.autoImageProcessor "preprocessor_config.json" with
  | error e1 =>
    rw [hP] at hp
    dsimp only at hp
    injection hp with hp
    exact hwf.2.2.1 _ _ hP hp
  | ok pr =>
    rw [hP] at hp
    dsimp only at hp
    cases hD : decodeImage L r with
    | error e1 =>
      rw [hD] at hp
      dsimp only at hp
      injection hp with hp
      subst hp
      rcases decodeImage_error hwf hD with h1 | h1 | h1 | h1 <;>
        exact PyError.noConfusion h1
    | ok img =>
      rw [hD] at hp
      dsimp only at hp
      cases hM : asModelObj h with
      | error e1 =>
        rw [hM] at hp
        dsimp only at hp
        injection hp with hp
        subst hp
        exact PyError.noConfusion (asModelObj_error hM)
      | ok m =>
        rw [hM] at hp
        dsimp only at hp
        cases hL : (L.id2label m).lookup
            (L.argmaxItem (L.resnetForward m (L.processorApply pr img))) with
        | none =>
          rw [hL] at hp
          dsimp only at hp
          injection hp with hp
          exact PyError.noConfusion hp
        | some lab =>
          rw [hL] at hp
          dsimp only at hp
          exact Except.noConfusion hp


/-! ## Claim theorems -/

/-- Claim C1 (amended): no adapter's `load()` returns a three-part bundle.
Both generate-container adapters return the bare model object — a handle
carrying no preprocessor and no device component (subscripting it raises
`TypeError`) — while the dict built inside the CLIP `load()` does hold all
three keys, it is discarded instead of returned. -/
theorem load_returns_bare_model (L : Libs) (env : Env) (h : PyVal) :
    (resnetLoad L env = .ok h →
      ∃ m, h = .modelObj m ∧ h.getItem "preprocess" = .error .typeError ∧
        h.getItem "device" = .error .typeError) ∧
    (clipGenLoad L env = .ok h →
      ∃ m, h = .modelObj m ∧ h.getItem "preprocess" = .error .typeError ∧
        h.getItem "device" = .error .typeError) ∧
    (∀ m p d, (clipGenModelDict m p d).getItem "model" = .ok (.modelObj m) ∧
      (clipGenModelDict m p d).getItem "preprocess" = .ok (.preprocObj p) ∧
      (clipGenModelDict m p d).getItem "device" = .ok (.str d)) := by
  refine ⟨?_, ?_, ?_⟩
  · intro hl
    unfold resnetLoad at hl
    cases hF : L.fromPretrained (resnetResolve env).path with
    | error e => rw [hF] at hl; exact Except.noConfusion hl
    | ok m =>
      rw [hF] at hl
      injection hl with hl
      subst hl
      exact ⟨m, rfl, rfl, rfl⟩
  · intro hl
    unfold clipGenLoad at hl
    cases hC : L.clipLoad (clipGenResolve env).path (clipDevice L) with
    | error e => rw [hC] at hl; exact Except.noConfusion hl
    | ok mp =>
      obtain ⟨m, p⟩ := mp
      rw [hC] at hl
      dsimp only at hl
      injection hl with hl
      subst hl
      exact ⟨m, rfl, rfl, rfl⟩
  · intro m p d
    refine ⟨rfl, rfl, rfl⟩

/-- Claim C1 witness: on concrete inputs the resnet `load()` succeeds and the
handle it returns has no preprocessor component. -/
theorem load_returns_bare_model_witness :
    ∃ m, (PyVal.modelObj 0 : PyVal) = .modelObj m ∧
      (PyVal.modelObj 0).getItem "preprocess" = .error .typeError ∧
      (PyVal.modelObj 0).getItem "device" = .error .typeError :=
  (load_returns_bare_model testLibs ⟨false, [], none⟩ (.modelObj 0)).1 rfl

/-- Claim C1 counterexample: the claim "load() returns a bundle containing
the model, the preprocessor and the device" is false — both generate
adapters return the bare model object, which contains neither a
preprocessor nor a device (subscripting it raises `TypeError`). -/
theorem modelHandles_bundle_counterexample :
    resnetLoad testLibs ⟨false, [], none⟩ = .ok (.modelObj 0) ∧
    (PyVal.modelObj 0).getItem "preprocess" = .error .typeError ∧
    (PyVal.modelObj 0).getItem "device" = .error .typeError ∧
    clipGenLoad testLibs ⟨false, [], none⟩ = .ok (.modelObj 0) ∧
    (PyVal.modelObj 0).getItem "model" = .error .typeError :=
  ⟨rfl, rfl, rfl, rfl, rfl⟩

/-- Claim C2: the CLIP generate-container `load()` builds the dict with keys
`model`, `preprocess`, `device` but returns the bare model; every composed
`predict(load(), request)` call on this adapter fails with `TypeError` at
the `model["preprocess"]` subscript, before the payload is even read, so it
can never return a response. -/
theorem clipGen_load_predict_always_fails (L : Libs) (env : Env) (h r : PyVal)
    (s : ProcState) :
    clipGenLoad L env = .ok h →
    (∃ m p, L.clipLoad (clipGenResolve env).path (clipDevice L) = .ok (m, p) ∧
      h = .modelObj m ∧
      clipGenModelDict m p (clipDevice L) =
        .dict [("model", .modelObj m), ("preprocess", .preprocObj p),
               ("device", .str (clipDevice L))]) ∧
    clipGenPredict L h r s = (.error .typeError, s, []) := by
  intro hl
  unfold clipGenLoad at hl
  cases hC : L.clipLoad (clipGenResolve env).path (clipDevice L) with
  | error e => rw [hC] at hl; exact Except.noConfusion hl
  | ok mp =>
    obtain ⟨m, p⟩ := mp
    rw [hC] at hl
    dsimp only at hl
    injection hl with hl
    subst hl
    exact ⟨⟨m, p, rfl, rfl, rfl⟩, rfl⟩

/-- Claim C2 witness: concretely, after a successful CLIP generate-container
load, predict on a well-formed request fails with `TypeError`. -/
theorem clipGen_load_predict_always_fails_witness :
    clipGenPredict testLibs (.modelObj 0) (.dict [("image", .str "ok")]) ⟨true⟩
      = (.error .typeError, ⟨true⟩, []) :=
  (clipGen_load_predict_always_fails testLibs ⟨false, [], none⟩ (.modelObj 0)
    (.dict [("image", .str "ok")]) ⟨true⟩ rfl).2


/-- Claim C3 counterexample: the claimed three-level precedence fails on
both sides.  With a non-empty mount directory and the override set,
`CLIP/serve.py` returns the override path, not the mounted path; with an
absent mount and the override set, the mount-probing loaders return their
default reference, not the override path. -/
theorem artifact_resolution_precedence_counterexample :
    clipServeResolve ⟨true, ["weights"], some "/override"⟩ ≠
      specResolve ⟨true, ["weights"], some "/override"⟩ "/opt/ml/model" "ViT-B/32" ∧
    resnetResolve ⟨false, [], some "/override"⟩ ≠
      specResolve ⟨false, [], some "/override"⟩ "/opt/ml/model" "../artefact" := by
  constructor <;> decide

/-- Claim C3 (amended): the code implements two separate two-level schemes,
not one three-level precedence.  The sageturner adapters and provided
containers return the mounted path exactly when the mount directory exists
and is non-empty and their default reference otherwise, never consulting the
environment; `CLIP/serve.py` returns the override path exactly when the
override variable is set non-empty and the default reference otherwise,
never probing the mount directory.  The two schemes agree with the spec's
precedence only when the other scheme's source is absent. -/
theorem artifact_resolution_two_level (env : Env) (b : Bool) (l : List String)
    (o : Option String) :
    resnetResolve { env with simpleSageArtifactPath := o } = resnetResolve env ∧
    clipGenResolve { env with simpleSageArtifactPath := o } = clipGenResolve env ∧
    clipServeResolve { env with mountIsDir := b, mountListing := l } =
      clipServeResolve env ∧
    (artefactOnSagemaker env = true →
      resnetResolve env = .mountedPath "/opt/ml/model" ∧
      clipGenResolve env = .mountedPath "/opt/ml/model/ViT-B-32.pt") ∧
    (artefactOnSagemaker env = false →
      resnetResolve env = .namedReference "../artefact" ∧
      clipGenResolve env = .namedReference "ViT-B/32") ∧
    (∀ pth, env.simpleSageArtifactPath = some pth → pth ≠ "" →
      clipServeResolve env = .mountedPath pth) ∧
    (envTruthy env.simpleSageArtifactPath = false →
      clipServeResolve env = .namedReference "ViT-B/32") ∧
    (envTruthy env.simpleSageArtifactPath = false →
      resnetResolve env = specResolve env "/opt/ml/model" "../artefact" ∧
      clipGenResolve env = specResolve env "/opt/ml/model/ViT-B-32.pt" "ViT-B/32") := by
  refine ⟨rfl, rfl, rfl, ?_, ?_, ?_, ?_, ?_⟩
  · intro hmnt
    constructor <;> simp [resnetResolve, clipGenResolve, hmnt]
  · intro hmnt
    constructor <;> simp [resnetResolve, clipGenResolve, hmnt]
  · intro pth hsome hne
    have hf : pth.isEmpty = false := by
      simp [Bool.eq_false_iff, String.isEmpty_iff]
      exact hne
    simp [clipServeResolve, hsome, hf]
  · intro htr
    unfold clipServeResolve
    cases hsome : env.simpleSageArtifactPath with
    | none => rfl
    | some pth =>
      rw [hsome] at htr
      unfold envTruthy at htr
      simp at htr
      simp [htr]
  · intro htr
    constructor
    · unfold specResolve resnetResolve
      rw [htr]
      cases hmnt : artefactOnSagemaker env <;> simp
    · unfold specResolve clipGenResolve
      rw [htr]
      cases hmnt : artefactOnSagemaker env <;> simp

/-- Claim C3 witness: concretely, `CLIP/serve.py` with an empty mount and the
override set to `/x` serves from the override path. -/
theorem artifact_resolution_two_level_witness :
    clipServeResolve ⟨false, [], some "/x"⟩ = .mountedPath "/x" :=
  (artifact_resolution_two_level ⟨false, [], some "/x"⟩ false [] none).2.2.2.2.2.1
    "/x" rfl (by decide)

/-- Claim C5: when the loader cannot produce valid weights from the resolved
artifact source, `load()` propagates the artifact-load failure, and the
failure is fatal: module-level startup fails and no running-server state
exists, so no predict path is reachable. -/
theorem failed_load_is_fatal (L : Libs) (env : Env) :
    (L.fromPretrained (resnetResolve env).path = .error .artifactLoadError →
      resnetLoad L env = .error .artifactLoadError ∧
      resnetServerStart L env = .error .artifactLoadError ∧
      ∀ srv, resnetServerStart L env ≠ .ok srv) ∧
    (L.clipLoad (clipGenResolve env).path (clipDevice L) =
        .error .artifactLoadError →
      clipProvidedLoad L env = .error .artifactLoadError ∧
      clipServerStart L env = .error .artifactLoadError ∧
      ∀ srv, clipServerStart L env ≠ .ok srv) := by
  constructor
  · intro hf
    have h1 : resnetLoad L env = .error .artifactLoadError := by
      unfold resnetLoad
      rw [hf]
    have h2 : resnetServerStart L env = .error .artifactLoadError := by
      unfold resnetServerStart
      rw [h1]
    exact ⟨h1, h2, fun srv hc => Except.noConfusion (h2 ▸ hc)⟩
  · intro hf
    have h1 : clipProvidedLoad L env = .error .artifactLoadError := by
      unfold clipProvidedLoad
      rw [hf]
    have h2 : clipServerStart L env = .error .artifactLoadError := by
      unfold clipServerStart
      rw [h1]
    exact ⟨h1, h2, fun srv hc => Except.noConfusion (h2 ▸ hc)⟩

/-- Claim C5 witness: with a loader that fails on every path, startup of the
resnet server fails with the artifact-load failure. -/
theorem failed_load_is_fatal_witness :
    resnetServerStart failLibs ⟨false, [], none⟩ = .error .artifactLoadError :=
  ((failed_load_is_fatal failLibs ⟨false, [], none⟩).1 rfl).2.1


/-- The concrete test libraries satisfy the error-classification sanity
conditions. -/
theorem testLibs_wf : testLibs.wf := by
  refine ⟨?_, ?_, ?_, ?_, ?_⟩
  · intro s e h
    simp only [testLibs] at h
    split at h
    · exact Except.noConfusion h
    · injection h with h; exact h.symm
  · intro b e h
    simp only [testLibs] at h
    exact Except.noConfusion h
  · intro p e h
    simp only [testLibs] at h
    exact Except.noConfusion h
  · intro p d e h
    simp only [testLibs] at h
    exact Except.noConfusion h
  · intro p e h
    simp only [testLibs] at h
    exact Except.noConfusion h

/-- Claim C4 counterexample: a request with the payload missing fails with
`KeyError`, not with a distinguished `InvalidRequestError`; a non-base64
payload fails with the base64 library error in the CLIP server (and, in the
CLIP generate adapter, with the handle bug's `TypeError` before the payload
is read). -/
theorem invalid_request_error_counterexample :
    (resnetPredict testLibs (.modelObj 0) (.dict [("payload", .str "x")])
      ⟨true⟩).1 = .error (.keyError "image") ∧
    PyError.keyError "image" ≠ .invalidRequestError ∧
    (clipGenPredict testLibs (.modelObj 0)
      (.dict [("image", .str "not-base64")]) ⟨true⟩).1 = .error .typeError ∧
    (clipServePredict testLibs 0 1 "cpu"
      (.dict [("image", .str "not-base64")]) ⟨true⟩).1 = .error .binasciiError ∧
    PyError.binasciiError ≠ .invalidRequestError ∧
    PyError.typeError ≠ .invalidRequestError :=
  ⟨rfl, by decide, rfl, rfl, by decide, by decide⟩

/-- Claim C4 (amended): a request whose payload is missing, not valid base64
or not a decodable image makes `predict` fail with the underlying uncaught
exception — `KeyError` for a missing payload, the base64/PIL library error
otherwise, `TypeError` in the CLIP generate adapter's handle bug — and never
with a distinguished `InvalidRequestError`, which no code defines or
raises. -/
theorem predict_error_undistinguished (L : Libs) (hwf : L.wf) (h r : PyVal)
    (m p : Nat) (d : String) (s : ProcState) (e : PyError) :
    ((resnetPredict L h r s).1 = .error e → e ≠ .invalidRequestError) ∧
    ((clipGenPredict L h r s).1 = .error e → e ≠ .invalidRequestError) ∧
    ((clipServePredict L m p d r s).1 = .error e → e ≠ .invalidRequestError) ∧
    (∀ pr, L.autoImageProcessor "preprocessor_config.json" = .ok pr →
      (resnetPredict L h (.dict []) s).1 = .error (.keyError "image")) := by
  refine ⟨resnetPredict_err L hwf h r s e, clipGenPredict_err L hwf h r s e,
    clipServePredict_err L hwf m p d r s e, ?_⟩
  intro pr hpr
  unfold resnetPredict withNoGrad
  rw [hpr]
  rfl

/-- Claim C4 witness: at the concrete libraries, a request without an
`image` key makes the resnet predict fail with `KeyError`. -/
theorem predict_error_undistinguished_witness :
    (resnetPredict testLibs (.modelObj 0) (.dict []) ⟨true⟩).1 =
      .error (.keyError "image") :=
  (predict_error_undistinguished testLibs testLibs_wf (.modelObj 0) (.dict [])
    0 1 "cpu" ⟨true⟩ (.keyError "image")).2.2.2 0 rfl

/-- Claim C6: whenever any of the three predicts succeeds, the returned
value is a JSON-serializable mapping — plain scalars and nested lists, no
model/preprocessor/tensor object. -/
theorem predict_response_json (L : Libs) (h r : PyVal) (m p : Nat)
    (d : String) (s : ProcState) (v : PyVal) :
    ((resnetPredict L h r s).1 = .ok v → isJsonSerializable v = true) ∧
    ((clipGenPredict L h r s).1 = .ok v → isJsonSerializable v = true) ∧
    ((clipServePredict L m p d r s).1 = .ok v → isJsonSerializable v = true) := by
  refine ⟨?_, ?_, ?_⟩
  · intro hok
    obtain ⟨pr, img, mm, label, _, _, _, _, hv⟩ := resnetPredict_ok L h r s v hok
    subst hv
    simp [isJsonSerializable]
  · intro hok
    obtain ⟨probs, hv⟩ := clipGenPredict_ok L h r s v hok
    subst hv
    simp [isJsonSerializable, isJson_probsToPy]
  · intro hok
    obtain ⟨probs, hv⟩ := clipServePredict_ok L m p d r s v hok
    subst hv
    simp [isJsonSerializable, isJson_probsToPy]

/-- Claim C6 witness: a successful concrete resnet predict returns the
JSON-serializable mapping with the label string. -/
theorem predict_response_json_witness :
    isJsonSerializable (.dict [("label", .str "tabby")]) = true :=
  (predict_response_json testLibs (.modelObj 0) (.dict [("image", .str "ok")])
    0 1 "cpu" ⟨true⟩ (.dict [("label", .str "tabby")])).1 rfl

/-- Claim C7: every successful classification predict returns
`{"label": s}` where `s` is the arg-max index over the classifier logits
mapped through the model configuration's label table; in particular the
pair (arg-max index, s) is an entry of that table. -/
theorem resnet_label_from_table (L : Libs) (h r : PyVal) (s : ProcState)
    (v : PyVal) :
    (resnetPredict L h r s).1 = .ok v →
    ∃ pr img m label,
      L.autoImageProcessor "preprocessor_config.json" = .ok pr ∧
      decodeImage L r = .ok img ∧
      asModelObj h = .ok m ∧
      (L.id2label m).lookup
        (L.argmaxItem (L.resnetForward m (L.processorApply pr img)))
        = some label ∧
      v = .dict [("label", .str label)] ∧
      (L.argmaxItem (L.resnetForward m (L.processorApply pr img)), label)
        ∈ L.id2label m := by
  intro hok
  obtain ⟨pr, img, m, label, h1, h2, h3, h4, h5⟩ := resnetPredict_ok L h r s v hok
  exact ⟨pr, img, m, label, h1, h2, h3, h4, h5, mem_of_lookup_eq_some h4⟩

/-- Claim C7 witness: concretely, the successful resnet predict returns the
label looked up from the table at the arg-max index. -/
theorem resnet_label_from_table_witness :
    ∃ pr img m label,
      testLibs.autoImageProcessor "preprocessor_config.json" = .ok pr ∧
      decodeImage testLibs (.dict [("image", .str "ok")]) = .ok img ∧
      asModelObj (.modelObj 0) = .ok m ∧
      (testLibs.id2label m).lookup
        (testLibs.argmaxItem
          (testLibs.resnetForward m (testLibs.processorApply pr img)))
        = some label ∧
      (PyVal.dict [("label", .str "tabby")] : PyVal)
        = .dict [("label", .str label)] ∧
      (testLibs.argmaxItem
        (testLibs.resnetForward m (testLibs.processorApply pr img)), label)
        ∈ testLibs.id2label m :=
  resnet_label_from_table testLibs (.modelObj 0) (.dict [("image", .str "ok")])
    ⟨true⟩ (.dict [("label", .str "tabby")]) rfl

/-- Claim C8: in every predict call, of every adapter, each forward pass in
the trace ran with gradient computation disabled. -/
theorem forward_passes_run_without_grad (L : Libs) (h r : PyVal) (m p : Nat)
    (d : String) (s : ProcState) :
    (resnetPredict L h r s).2.2.all (fun g => !g) = true ∧
    (clipGenPredict L h r s).2.2.all (fun g => !g) = true ∧
    (clipServePredict L m p d r s).2.2.all (fun g => !g) = true :=
  ⟨resnetPredict_trace L h r s, clipGenPredict_trace L h r s,
   clipServePredict_trace L m p d r s⟩

/-- Claim C9: predict is deterministic — it restores the torch state it was
called with, and a second call with the identical request and unchanged
handles returns the identical result. -/
theorem predict_deterministic (L : Libs) (h r : PyVal) (m p : Nat)
    (d : String) (s : ProcState) :
    ((resnetPredict L h r s).2.1 = s ∧
      resnetPredict L h r ((resnetPredict L h r s).2.1)
        = resnetPredict L h r s) ∧
    ((clipGenPredict L h r s).2.1 = s ∧
      clipGenPredict L h r ((clipGenPredict L h r s).2.1)
        = clipGenPredict L h r s) ∧
    ((clipServePredict L m p d r s).2.1 = s ∧
      clipServePredict L m p d r ((clipServePredict L m p d r s).2.1)
        = clipServePredict L m p d r s) := by
  refine ⟨⟨resnetPredict_state L h r s, ?_⟩,
    ⟨clipGenPredict_state L h r s, ?_⟩,
    ⟨clipServePredict_state L m p d r s, ?_⟩⟩
  · rw [resnetPredict_state]
  · rw [clipGenPredict_state]
  · rw [clipServePredict_state]

/-- Claim C10: the CLIP predicts read nothing of the request but its
`image` field, and score against the hardcoded candidate label list
`["a diagram", "a dog", "a beanbag"]`; two requests agreeing on the image
yield equal responses. -/
theorem clip_response_depends_only_on_image (L : Libs) (h r1 r2 : PyVal)
    (m p : Nat) (d : String) (s : ProcState) :
    clipCandidateLabels = ["a diagram", "a dog", "a beanbag"] ∧
    (r1.getItem "image" = r2.getItem "image" →
      clipGenPredict L h r1 s = clipGenPredict L h r2 s) ∧
    (r1.getAttr "image" = r2.getAttr "image" →
      clipServePredict L m p d r1 s = clipServePredict L m p d r2 s) :=
  ⟨rfl, fun him => clipGenPredict_image_congr L h r1 r2 s him,
    fun him => clipServePredict_image_congr L m p d r1 r2 s him⟩

/-- Claim C10 witness: concretely, adding an auxiliary field to a request
leaves the CLIP server response unchanged. -/
theorem clip_response_depends_only_on_image_witness :
    clipServePredict testLibs 0 1 "cpu" (.dict [("image", .str "ok")]) ⟨true⟩ =
      clipServePredict testLibs 0 1 "cpu"
        (.dict [("image", .str "ok"), ("aux", .str "ignored")]) ⟨true⟩ :=
  (clip_response_depends_only_on_image testLibs (.modelObj 0)
    (.dict [("image", .str "ok")])
    (.dict [("image", .str "ok"), ("aux", .str "ignored")]) 0 1 "cpu"
    ⟨true⟩).2.2 rfl

end Sageturner
